/-
Verification of the go-kwlib client library against its specification.

The definitions below are shallow embeddings of the Go source:
  * `src/kw_api_error.go`   — error classification (`KWError`, `AddError`,
    `KWAPIError`, the category bit constants and `TOKEN_ERR`);
  * `src/kw_api.go`         — the retry loop of `KWSession.Call`;
  * `src/unnamed/part_001`  — `KWAPI.getChunkInfo`, `KWSession.Upload`,
    `web_downloader.Read`/`Seek`, `transfer_reader.Seek`;
  * `src/transfer_monitor.go` — `TMonitor.RecordTransfer` / `TMonitor.Offset`.

Go `int64`/`int` values appearing here are either provably non-negative and far
below 2^63 (sizes, counts, flag masks) and are modelled as `Nat`, or may be
negative (identifiers, seek offsets, counters) and are modelled as `Int`;
no operation in the modelled code can overflow 64 bits on the inputs
considered, so unbounded integers are faithful.
-/
import Mathlib

namespace KWLib

/-! ## Error classification (`src/kw_api_error.go`) -/

/-- Error category bits, `src/kw_api_error.go` lines 14–31 (`1 << iota`). -/
def ERR_AUTH_UNAUTHORIZED : Nat := 1
def ERR_AUTH_PROFILE_CHANGED : Nat := 2
def ERR_ACCESS_USER : Nat := 4
def ERR_INVALID_GRANT : Nat := 8
def ERR_ENTITY_DELETED_PERMANENTLY : Nat := 16
def ERR_ENTITY_NOT_FOUND : Nat := 32
def ERR_ENTITY_DELETED : Nat := 64
def ERR_ENTITY_PARENT_FOLDER_DELETED : Nat := 128
def ERR_REQUEST_METHOD_NOT_ALLOWED : Nat := 256
def ERR_INTERNAL_SERVER_ERROR : Nat := 512
def ERR_ENTITY_EXISTS : Nat := 1024
def ERR_ENTITY_ROLE_IS_ASSIGNED : Nat := 2048
def UNAVAILABLE : Nat := 4096
def SERVICE_UNAVAILABLE : Nat := 8192
def ERR_ENTITY_NOT_SCANNED : Nat := 16384
def ERR_ENTITY_PARENT_FOLDER_MEMBER_EXISTS : Nat := 32768

/-- `const TOKEN_ERR`, `src/kw_api_error.go` line 34. -/
def TOKEN_ERR : Nat := ERR_AUTH_PROFILE_CHANGED ||| ERR_INVALID_GRANT ||| ERR_AUTH_UNAUTHORIZED

/-- `type KWError struct \x7b flag int64; message []string \x7d`,
`src/kw_api_error.go` lines 37–40.  The flag is always a union of the
non-negative bit constants above, so `Nat` is faithful. -/
structure KWError where
  flag : Nat
  message : List String
deriving DecidableEq, Repr

/-- `NewKWError`, `src/kw_api_error.go` lines 120–124: zero flag, empty
message list. -/
def NewKWError : KWError := { flag := 0, message := [] }

/-- `strings.ToUpper` restricted to the ASCII strings the classifier
receives (Go upper-cases each rune; the codes involved are ASCII). -/
def goToUpper (s : String) : String := ⟨s.data.map Char.toUpper⟩

/-- `strings.Contains`: `pat` occurs as a contiguous substring of `s`. -/
def goContains (s pat : String) : Bool :=
  (List.range (s.toList.length + 1)).any
    (fun i => (s.toList.drop i).take pat.toList.length = pat.toList)

/-- `KWError.AddError`, `src/kw_api_error.go` lines 43–83.  The code string
is upper-cased first, then matched exactly against the switch arms in source
order; the `default` arm sets the internal-server-error bit when the
(upper-cased) code contains `"ERR_INTERNAL_"`.  The message is appended as
`fmt.Sprintf("%s. (kiteworks:%s)", message, code)` with the upper-cased code.
Note the source keeps a `case "unauthorized_client":` arm after the
upper-casing; it is transcribed as written. -/
def KWError.AddError (e : KWError) (code message : String) : KWError :=
  let code := goToUpper code
  let flag :=
    if code = "ERR_ENTITY_PARENT_FOLDER_MEMBER_EXISTS" then
      e.flag ||| ERR_ENTITY_PARENT_FOLDER_MEMBER_EXISTS
    else if code = "ERR_ENTITY_NOT_SCANNED" then e.flag ||| ERR_ENTITY_NOT_SCANNED
    else if code = "ERR_ENTITY_ROLE_IS_ASSIGNED" then e.flag ||| ERR_ENTITY_ROLE_IS_ASSIGNED
    else if code = "ERR_ENTITY_EXISTS" then e.flag ||| ERR_ENTITY_EXISTS
    else if code = "ERR_AUTH_UNAUTHORIZED" then e.flag ||| ERR_AUTH_UNAUTHORIZED
    else if code = "unauthorized_client" then e.flag ||| ERR_AUTH_UNAUTHORIZED
    else if code = "ERR_AUTH_PROFILE_CHANGED" then e.flag ||| ERR_AUTH_PROFILE_CHANGED
    else if code = "ERR_ACCESS_USER" then e.flag ||| ERR_ACCESS_USER
    else if code = "INVALID_GRANT" then e.flag ||| ERR_INVALID_GRANT
    else if code = "ERR_ENTITY_DELETED_PERMANENTLY" then
      e.flag ||| ERR_ENTITY_DELETED_PERMANENTLY
    else if code = "ERR_ENTITY_DELETED" then e.flag ||| ERR_ENTITY_DELETED
    else if code = "ERR_ENTITY_NOT_FOUND" then e.flag ||| ERR_ENTITY_NOT_FOUND
    else if code = "ERR_ENTITY_PARENT_FOLDER_DELETED" then
      e.flag ||| ERR_ENTITY_PARENT_FOLDER_DELETED
    else if code = "ERR_REQUEST_METHOD_NOT_ALLOWED" then
      e.flag ||| ERR_REQUEST_METHOD_NOT_ALLOWED
    else if code = "UNAVAILABLE" then e.flag ||| UNAVAILABLE
    else if goContains code "ERR_INTERNAL_" then e.flag ||| ERR_INTERNAL_SERVER_ERROR
    else e.flag
  { flag := flag,
    message := e.message ++ [message ++ ". (kiteworks:" ++ code ++ ")"] }

/-- A Go `error` value as handled by the retry/classification code: either a
classified `*KWError`, or one of the unclassified kinds (transport failure
from `http.Client.Do`, a JSON-decode failure from `decodeJSON`, any other
plain error). -/
inductive GoErr where
  | kw : KWError → GoErr
  | transport : String → GoErr
  | decode : String → GoErr
  | other : String → GoErr
deriving DecidableEq, Repr

/-- The type assertion `err.(*KWError)` succeeds. -/
def GoErr.isKW : GoErr → Bool
  | .kw _ => true
  | _ => false

/-- `KWAPIError`, `src/kw_api_error.go` lines 100–109: a type assertion to
`*KWError` (anything else answers `false`), then a bit-set intersection test
`e.flag & input != 0`. -/
def KWAPIError (err : GoErr) (input : Nat) : Bool :=
  match err with
  | .kw e => decide (e.flag &&& input ≠ 0)
  | _ => false

end KWLib

namespace KWLib

/-! ### Claims C4, C7, C10 — error classification -/

/-- C4: `KWError.AddError` matches code strings case-insensitively against the
fixed table, and in particular `unauthorized_client` sets the
auth-unauthorized bit.  The code upper-cases the code string before the
switch, so the literal arm `case "unauthorized_client":` can never match:
evaluated at the failing input `"unauthorized_client"`, no bit is set and the
auth-unauthorized query is `false`, while the sibling arm `INVALID_GRANT`
does set its bit.  The claim is right and the source's dead switch arm is the
slip. -/
theorem C4_unauthorized_client_sets_no_bit :
    (NewKWError.AddError "unauthorized_client" "msg").flag = 0 ∧
    (NewKWError.AddError "Unauthorized_Client" "msg").flag = 0 ∧
    KWAPIError (.kw (NewKWError.AddError "unauthorized_client" "msg"))
      ERR_AUTH_UNAUTHORIZED = false ∧
    (NewKWError.AddError "INVALID_GRANT" "msg").flag = ERR_INVALID_GRANT := by
  decide

/-- C7: the composite token-error mask `TOKEN_ERR` equals the union of the
auth-unauthorized, auth-profile-changed and invalid-grant bits; an error
classified from code `ERR_AUTH_UNAUTHORIZED` sets the auth-unauthorized bit
and intersects `TOKEN_ERR` under the `KWAPIError` bit-set query, while one
classified only from `ERR_ENTITY_EXISTS` does not. -/
theorem C7_token_err_mask_and_query :
    TOKEN_ERR = ERR_AUTH_UNAUTHORIZED ||| ERR_AUTH_PROFILE_CHANGED ||| ERR_INVALID_GRANT ∧
    (NewKWError.AddError "ERR_AUTH_UNAUTHORIZED" "m").flag &&& ERR_AUTH_UNAUTHORIZED ≠ 0 ∧
    KWAPIError (.kw (NewKWError.AddError "ERR_AUTH_UNAUTHORIZED" "m")) TOKEN_ERR = true ∧
    KWAPIError (.kw (NewKWError.AddError "ERR_ENTITY_EXISTS" "m")) TOKEN_ERR = false := by
  decide

/-- C10: `KWAPIError` answers `false` for every error value that is not a
classified `*KWError`, whatever the mask; in particular no transport,
protocol or decode error can satisfy the retry loop's
internal-server-error/token-error check. -/
theorem C10_nonKW_never_matches (err : GoErr) (mask : Nat) (h : err.isKW = false) :
    KWAPIError err mask = false := by
  cases err <;> simp_all [KWAPIError, GoErr.isKW]

/-- Witness for C10 at a concrete transport error and the retry loop's mask. -/
theorem C10_nonKW_never_matches_witness :
    (GoErr.transport "tls handshake failure").isKW = false ∧
    KWAPIError (.transport "tls handshake failure")
      (ERR_INTERNAL_SERVER_ERROR ||| TOKEN_ERR) = false :=
  ⟨rfl, C10_nonKW_never_matches _ _ rfl⟩

end KWLib

namespace KWLib

/-! ## The retry loop of `KWSession.Call` (`src/kw_api.go` lines 393–443)

One loop iteration stages the body, executes `client.Do` and, on a 2xx
response, `decodeJSON`.  Both failure sites feed the same test
`KWAPIError(err, ERR_INTERNAL_SERVER_ERROR|TOKEN_ERR)`: on a match the loop
reauthenticates (`reAuth`), sleeps and continues; any other error breaks out
of the loop immediately; success breaks with a nil error.  The outcome of one
iteration is therefore a single value: -/

/-- Outcome of one attempt of the retry loop: overall success, or the error
produced by `client.Do` (transport failure or classified `respError` result)
or by `decodeJSON`. -/
inductive AttemptResult where
  | success
  | fail : GoErr → AttemptResult
deriving DecidableEq, Repr

/-- The retry loop of `KWSession.Call`, `src/kw_api.go` lines 396–443, as a
function of the per-attempt outcomes.  `i` is the loop counter, bounded by
`retries` (`for i := 0; i <= int(s.Retries); i++`); the returned `Nat` counts
invocations of `reAuth`.

The body of `reAuth` calls `setToken`/`refreshToken`, which live in the
repository's auth source file that is not under `src/`.  Modelled from the
spec: reauthentication loads, refreshes, persists and re-attaches the token
and here always succeeds, so a retried attempt always proceeds to the next
iteration; only the number of reauthentication attempts and the loop's
control flow are at issue in the claims.

When the oracle list is exhausted while the loop still wants an attempt, a
placeholder error is returned; the scenarios proved below always supply
enough attempts. -/
def CallLoop (retries : Nat) (i : Nat) (reauths : Nat) :
    List AttemptResult → Nat × Option GoErr
  | [] => (reauths, some (.other "attempt oracle exhausted"))
  | a :: rest =>
    match a with
    | .success => (reauths, none)
    | .fail e =>
      if KWAPIError e (ERR_INTERNAL_SERVER_ERROR ||| TOKEN_ERR) then
        if i < retries then CallLoop retries (i + 1) (reauths + 1) rest
        else (reauths + 1, some e)
      else (reauths, some e)

/-- `KWSession.Call`'s loop started as in the source: `i = 0`, no
reauthentication attempts yet. -/
def Call (retries : Nat) (attempts : List AttemptResult) : Nat × Option GoErr :=
  CallLoop retries 0 0 attempts

/-- C1 counterexample: a transport failure on attempt 1 followed by success
on attempt 2, with retry budget 3, does **not** yield an overall success —
`client.Do`'s error is not a `*KWError`, so `KWAPIError` is `false` and the
loop breaks, returning the transport error after zero reauthentication
attempts and without consuming the second attempt. -/
theorem C1_transport_not_retried_counterexample :
    Call 3 [.fail (.transport "connection reset"), .success] =
      (0, some (.transport "connection reset")) := by
  decide

/-- C1 as amended: a transport-level failure ends the retry loop immediately —
`Call` returns the transport error with zero reauthentication attempts,
whatever the retry budget and the outcomes of later attempts.  Only a
classified error whose bits intersect the internal-server-error/token-error
mask is retried; in particular a classified failure intersecting the
token-error mask on attempt 1 followed by success on attempt 2, with retry
budget 3, yields exactly one reauthentication attempt and an overall
success. -/
theorem C1_amended (retries : Nat) (s : String) (rest : List AttemptResult)
    (e : KWError) (h : KWAPIError (.kw e) TOKEN_ERR = true) :
    Call retries (.fail (.transport s) :: rest) = (0, some (.transport s)) ∧
    Call 3 [.fail (.kw e), .success] = (1, none) := by
  constructor
  · simp [Call, CallLoop, KWAPIError]
  · have h2 : KWAPIError (.kw e) (ERR_INTERNAL_SERVER_ERROR ||| TOKEN_ERR) = true := by
      simp only [KWAPIError, decide_eq_true_eq] at h ⊢
      intro hz
      obtain ⟨i, hi⟩ := Nat.ne_zero_implies_bit_true h
      have hli : (e.flag &&& (ERR_INTERNAL_SERVER_ERROR ||| TOKEN_ERR)).testBit i = false := by
        rw [hz]; exact Nat.zero_testBit i
      simp only [Nat.testBit_and, Nat.testBit_or, Bool.and_eq_true,
        Bool.and_eq_false_iff, Bool.or_eq_false_iff] at hi hli
      rcases hli with hl | hl
      · exact absurd hi.1 (by simp [hl])
      · exact absurd hi.2 (by simp [hl.2])
    simp [Call, CallLoop, h2]

/-- Witness for C1's amended theorem at a concrete token-classified error. -/
theorem C1_amended_witness :
    KWAPIError (.kw (NewKWError.AddError "INVALID_GRANT" "m")) TOKEN_ERR = true ∧
    Call 3 [.fail (.transport "x")] = (0, some (.transport "x")) ∧
    Call 3 [.fail (.kw (NewKWError.AddError "INVALID_GRANT" "m")), .success] = (1, none) :=
  ⟨by decide,
   (C1_amended 3 "x" [] (NewKWError.AddError "INVALID_GRANT" "m") (by decide)).1,
   (C1_amended 3 "x" [] (NewKWError.AddError "INVALID_GRANT" "m") (by decide)).2⟩

end KWLib

namespace KWLib

/-! ## Chunk geometry (`KWAPI.getChunkInfo`, `src/unnamed/part_001` lines 25–45) -/

/-- `kw_chunk_size_max`, `src/unnamed/part_001` line 17. -/
def kw_chunk_size_max : Int := 68157440

/-- `kw_chunk_size_min`, `src/unnamed/part_001` line 18. -/
def kw_chunk_size_min : Int := 1048576

/-- The loop `for total_size%chunk_size > 0 \x7b chunk_size-- \x7d` of
`getChunkInfo` (lines 40–42): starting from a candidate chunk size, decrement
until it divides `total_size`.  The candidate itself is the recursion
argument, which the loop strictly decreases; it never reaches 0 because
`total % 1 = 0` stops it at 1. -/
def findDivisor (total : Nat) : Nat → Nat
  | 0 => 0
  | c + 1 => if total % (c + 1) > 0 then findDivisor total c else c + 1

/-- The clamping prelude of `getChunkInfo` (lines 26–34): `chunk_size`
starts at `K.MaxChunkSize`, is replaced by the max bound when zero or above
it, and by the min bound when at most the min bound.  The result is a
positive `int64`, returned as a `Nat`. -/
def clampChunk (MaxChunkSize : Int) : Nat :=
  let chunk_size := MaxChunkSize
  let chunk_size :=
    if chunk_size = 0 ∨ chunk_size > kw_chunk_size_max then kw_chunk_size_max else chunk_size
  let chunk_size := if chunk_size ≤ kw_chunk_size_min then kw_chunk_size_min else chunk_size
  chunk_size.toNat

/-- `KWAPI.getChunkInfo`, `src/unnamed/part_001` lines 25–45: returns the
total number of chunks for a transfer of `total_size` bytes — 1 when the
total does not exceed the clamped chunk size, otherwise
`total_size / chunk_size` for the decremented divisor found above. -/
def getChunkInfo (MaxChunkSize : Int) (total_size : Nat) : Nat :=
  let chunk_size := clampChunk MaxChunkSize
  if total_size ≤ chunk_size then 1
  else total_size / findDivisor total_size chunk_size

theorem clampChunk_bounds (M : Int) :
    1048576 ≤ clampChunk M ∧ clampChunk M ≤ 68157440 := by
  simp only [clampChunk, kw_chunk_size_max, kw_chunk_size_min]
  split <;> split <;> omega

theorem findDivisor_spec (total : Nat) :
    ∀ c, 0 < c →
      total % findDivisor total c = 0 ∧ 0 < findDivisor total c ∧ findDivisor total c ≤ c := by
  intro c
  induction c with
  | zero => omega
  | succ k ih =>
    intro _
    rw [findDivisor]
    by_cases hmod : total % (k + 1) > 0
    · rw [if_pos hmod]
      rcases Nat.eq_zero_or_pos k with hk | hk
      · subst hk; simp [Nat.mod_one] at hmod
      · obtain ⟨h1, h2, h3⟩ := ih hk
        exact ⟨h1, h2, Nat.le_succ_of_le h3⟩
    · rw [if_neg hmod]
      exact ⟨Nat.le_zero.mp (Nat.not_lt.mp hmod), Nat.succ_pos k, Nat.le_refl _⟩

theorem findDivisor_eq_of (total m : Nat) :
    ∀ c, m ≤ c → total % m = 0 → (∀ k, m < k → k ≤ c → total % k > 0) →
      findDivisor total c = m := by
  intro c
  induction c with
  | zero => intro h _ _; rw [findDivisor]; omega
  | succ j ih =>
    intro hle hm hk
    rw [findDivisor]
    rcases Nat.lt_or_ge m (j + 1) with hlt | hge
    · rw [if_pos (hk (j + 1) hlt (Nat.le_refl _))]
      exact ih (by omega) hm (fun k h1 h2 => hk k h1 (by omega))
    · have hmeq : m = j + 1 := by omega
      subst hmeq
      rw [if_neg (by omega)]

end KWLib

namespace KWLib

theorem getChunkInfo_spec_instance : getChunkInfo 68157440 100000000 = 2 := by
  have h50 : findDivisor 100000000 68157440 = 50000000 := by
    apply findDivisor_eq_of
    · norm_num
    · norm_num
    · intro k hk1 hk2
      have h1 : k ≤ 100000000 := by omega
      rw [Nat.mod_eq_sub_mod h1, Nat.mod_eq_of_lt (by omega)]
      omega
  have hclamp : clampChunk 68157440 = 68157440 := by decide
  rw [getChunkInfo, hclamp, h50]
  norm_num

/-- C3 counterexample: for MaxChunkSize 1,048,576 (clamped to the 1 MiB lower
bound) and total size 2,097,150, the decrement loop passes the lower bound:
`getChunkInfo` returns 2 chunks, so the implied chunk size is
2,097,150 / 2 = 1,048,575 bytes — it divides the total but lies **below** the
claimed clamped range `[1,048,576; 68,157,440]`. -/
theorem C3_chunk_size_below_min_counterexample :
    getChunkInfo 1048576 2097150 = 2 ∧
    2097150 / getChunkInfo 1048576 2097150 = 1048575 ∧
    2097150 % (2097150 / getChunkInfo 1048576 2097150) = 0 ∧
    ¬ (1048576 ≤ 2097150 / getChunkInfo 1048576 2097150) := by
  decide

/-- C3 as amended: for every positive total size and every configured
MaxChunkSize, the chunk size implied by `getChunkInfo` (total divided by the
returned chunk count) evenly divides the total, the chunk count equals
total / chunk size, the implied chunk size never exceeds the 68,157,440
upper clamp and is at least 1 — but the divisor-decrementing loop may drive
it below the 1,048,576 lower clamp.  Totals not exceeding the clamped bound
always yield exactly one chunk.  For total size 100,000,000 and a
68,157,440-byte bound the derived chunk size is 50,000,000, which lies in
[1,048,576; 68,157,440] and divides the total. -/
theorem C3_amended_chunk_geometry (MaxChunkSize : Int) (total : Nat) (h : 0 < total) :
    (total / getChunkInfo MaxChunkSize total) ∣ total ∧
    1 ≤ total / getChunkInfo MaxChunkSize total ∧
    total / getChunkInfo MaxChunkSize total ≤ 68157440 ∧
    getChunkInfo MaxChunkSize total = total / (total / getChunkInfo MaxChunkSize total) ∧
    (total ≤ clampChunk MaxChunkSize → getChunkInfo MaxChunkSize total = 1) ∧
    getChunkInfo 68157440 100000000 = 2 ∧
    100000000 / getChunkInfo 68157440 100000000 = 50000000 ∧
    1048576 ≤ 100000000 / getChunkInfo 68157440 100000000 ∧
    100000000 % (100000000 / getChunkInfo 68157440 100000000) = 0 := by
  have hcb := clampChunk_bounds MaxChunkSize
  have hinst := getChunkInfo_spec_instance
  by_cases hle : total ≤ clampChunk MaxChunkSize
  · have hg : getChunkInfo MaxChunkSize total = 1 := by
      rw [getChunkInfo, if_pos hle]
    rw [hg]
    simp only [Nat.div_one]
    refine ⟨dvd_refl total, h, by omega, (Nat.div_self h).symm, fun _ => trivial, hinst, ?_⟩
    rw [hinst]
    norm_num
  · have hgt : clampChunk MaxChunkSize < total := Nat.not_le.mp hle
    obtain ⟨hd0, hdpos, hdle⟩ := findDivisor_spec total (clampChunk MaxChunkSize) (by omega)
    have hdvd : findDivisor total (clampChunk MaxChunkSize) ∣ total :=
      Nat.dvd_of_mod_eq_zero hd0
    have hg : getChunkInfo MaxChunkSize total =
        total / findDivisor total (clampChunk MaxChunkSize) := by
      rw [getChunkInfo, if_neg hle]
    have hdiv : total / (total / findDivisor total (clampChunk MaxChunkSize)) =
        findDivisor total (clampChunk MaxChunkSize) :=
      Nat.div_div_self hdvd (by omega)
    rw [hg, hdiv]
    refine ⟨hdvd, hdpos, by omega, rfl, fun hh => absurd hh hle, hinst, ?_⟩
    rw [hinst]
    norm_num

/-- Witness for C3's amended theorem at MaxChunkSize 68,157,440 and total
100,000,000 (the spec's own instance). -/
theorem C3_amended_chunk_geometry_witness :
    0 < 100000000 ∧
    (100000000 / getChunkInfo 68157440 100000000) ∣ 100000000 ∧
    100000000 / getChunkInfo 68157440 100000000 ≤ 68157440 :=
  ⟨by norm_num, (C3_amended_chunk_geometry 68157440 100000000 (by norm_num)).1,
   (C3_amended_chunk_geometry 68157440 100000000 (by norm_num)).2.2.1⟩

end KWLib

namespace KWLib

/-! ## Chunked upload (`KWSession.Upload`, `src/unnamed/part_001` lines 216–373)

`Upload` fetches the canonical upload record (`GET /rest/uploads`), selects
`upload.Data[0]` (Go zero value when the list is empty), rejects a mismatched
ID, derives `ChunkSize = TotalSize / TotalChunks` and the resume point, seeks
the source, then loops submitting multipart chunks while
`transfered_bytes < total_bytes || total_bytes == 0`, each iteration posting
fields `index = ChunkIndex+1` and `compressionSize`/`originalSize` =
`ChunkSize` (re-assigned to `total_bytes - transfered_bytes` on the final
chunk) and decoding the response into `resp_data`.  After the loop a zero
`resp_data.ID` is the `ErrUploadNoResp` failure.

The model takes the server's listing and, as an oracle, the `id` decoded from
each successful chunk response; chunk submissions are recorded in order.
The source's early-return paths for request-building, seek and HTTP errors
are not exercised by the claims and the model treats those steps as
succeeding.  Go's integer division panics on a zero divisor; the model makes
that outcome explicit as `divByZeroPanic`. -/

/-- The `upload_data` record decoded from `GET /rest/uploads`
(`src/unnamed/part_001` lines 217–225).  `ID` is a Go `int` (zero value 0);
the sizes and counts returned by the server are non-negative. -/
structure upload_data where
  ID : Int
  TotalSize : Nat
  TotalChunks : Nat
  UploadedSize : Nat
  UploadedChunks : Nat
  Finished : Bool
  URI : String
deriving DecidableEq, Repr

/-- The Go zero value of `upload_data`, used when the listing is empty
(lines 241–245). -/
def zero_upload_data : upload_data := ⟨0, 0, 0, 0, 0, false, ""⟩

/-- `upload_record`: `upload.Data[0]` when the decoded list is non-empty,
otherwise the zero value (lines 241–245). -/
def uploadSelectRecord (data : List upload_data) : upload_data :=
  match data with
  | [] => zero_upload_data
  | r :: _ => r

/-- How a modelled `Upload` run ends when it does not produce a result ID. -/
inductive UploadErr where
  | noUploadID       -- `ErrNoUploadID` ("Upload ID not found.")
  | uploadNoResp     -- `ErrUploadNoResp` ("Unexpected empty resposne from server.")
  | divByZeroPanic   -- Go runtime panic: `TotalSize / TotalChunks` with `TotalChunks = 0`
  | oracleExhausted  -- model artifact: no oracle entry for a wanted chunk response
deriving DecidableEq, Repr

/-- Outcome of a modelled `Upload` run: the returned result ID, or the error. -/
inductive UploadResult where
  | ok : Int → UploadResult
  | error : UploadErr → UploadResult
deriving DecidableEq, Repr

/-- One multipart chunk submission: the 1-based `index` field and the
declared `compressionSize`/`originalSize` field (lines 312–322). -/
structure ChunkSubmission where
  index : Nat
  declaredSize : Nat
deriving DecidableEq, Repr

/-- The upload loop, lines 277–366: while
`transfered_bytes < total_bytes || total_bytes == 0`, re-assign `ChunkSize`
to `total_bytes - transfered_bytes` on the final chunk
(`ChunkIndex == TotalChunks-1`, lines 294–305), submit the chunk, decode the
response `id` (the next oracle entry), advance `ChunkIndex` and
`transfered_bytes`, and `break` after one iteration when `total_bytes == 0`
(lines 363–365).  After the loop, `resp_data.ID == 0` is the
`ErrUploadNoResp` failure (lines 368–372). -/
def uploadLoop (total totalChunks : Nat) :
    List Int → Nat → Nat → Nat → Int → List ChunkSubmission →
    List ChunkSubmission × UploadResult
  | responses, chunkSize, chunkIndex, transfered, respID, subs =>
    if transfered < total ∨ total = 0 then
      match responses with
      | [] => (subs, .error .oracleExhausted)
      | r :: rest =>
        let cs := if chunkIndex = totalChunks - 1 then total - transfered else chunkSize
        let subs2 := subs ++ [⟨chunkIndex + 1, cs⟩]
        if total = 0 then (subs2, if r = 0 then .error .uploadNoResp else .ok r)
        else uploadLoop total totalChunks rest cs (chunkIndex + 1) (transfered + cs) r subs2
    else (subs, if respID = 0 then .error .uploadNoResp else .ok respID)

/-- The byte offset passed to `source.Seek(ChunkSize*ChunkIndex, 0)` when the
upload resumes, lines 251–262: `ChunkSize = TotalSize / TotalChunks`,
`ChunkIndex = UploadedChunks`, sought only when `ChunkIndex > 0` and
`UploadedSize > 0 && UploadedChunks > 0`. -/
def uploadSeekOffset (upload_record : upload_data) : Option Nat :=
  let ChunkSize := upload_record.TotalSize / upload_record.TotalChunks
  let ChunkIndex := upload_record.UploadedChunks
  if 0 < ChunkIndex ∧ 0 < upload_record.UploadedSize ∧ 0 < upload_record.UploadedChunks
  then some (ChunkSize * ChunkIndex) else none

/-- `KWSession.Upload`, lines 216–373, as a function of the requested upload
ID, the server's listing for it, and the per-chunk response oracle.  Returns
the chunk submissions performed and the result (`resp_data.ID` on success). -/
def Upload (upload_id : Int) (listing : List upload_data) (responses : List Int) :
    List ChunkSubmission × UploadResult :=
  let upload_record := uploadSelectRecord listing
  if upload_id ≠ upload_record.ID then ([], .error .noUploadID)
  else if upload_record.TotalChunks = 0 then ([], .error .divByZeroPanic)
  else
    uploadLoop upload_record.TotalSize upload_record.TotalChunks responses
      (upload_record.TotalSize / upload_record.TotalChunks)
      upload_record.UploadedChunks upload_record.UploadedSize 0 []

end KWLib

namespace KWLib

/-! ### Claims C2, C5, C9 — chunked upload -/

/-- Accumulator property of `uploadLoop`: the submissions already recorded
are preserved as a prefix of the final submission list. -/
theorem uploadLoop_acc (total totalChunks : Nat) :
    ∀ (responses : List Int) (chunkSize chunkIndex transfered : Nat) (respID : Int)
      (subs : List ChunkSubmission),
      ∃ t, (uploadLoop total totalChunks responses chunkSize chunkIndex transfered respID subs).1
        = subs ++ t := by
  intro responses
  induction responses with
  | nil =>
    intro cs ci tr rid subs
    rw [uploadLoop]
    split
    · exact ⟨[], (List.append_nil subs).symm⟩
    · exact ⟨[], (List.append_nil subs).symm⟩
  | cons r rest ih =>
    intro cs ci tr rid subs
    rw [uploadLoop]
    split
    · dsimp only
      split
      · exact ⟨[⟨ci + 1, if ci = totalChunks - 1 then total - tr else cs⟩], rfl⟩
      · obtain ⟨t, ht⟩ := ih (if ci = totalChunks - 1 then total - tr else cs) (ci + 1)
          (tr + if ci = totalChunks - 1 then total - tr else cs) r
          (subs ++ [⟨ci + 1, if ci = totalChunks - 1 then total - tr else cs⟩])
        refine ⟨[⟨ci + 1, if ci = totalChunks - 1 then total - tr else cs⟩] ++ t, ?_⟩
        rw [ht, List.append_assoc]
    · exact ⟨[], (List.append_nil subs).symm⟩

/-- C2 counterexample: resubmitting an already-fully-uploaded upload ID
(server record with `UploadedSize = TotalSize = 100`, one chunk, already
uploaded) performs zero chunk submissions but does **not** return the
existing result ID: the loop never runs, `resp_data.ID` stays 0 and `Upload`
fails with the `ErrUploadNoResp` error, whatever responses the server would
have given. -/
theorem C2_fully_uploaded_counterexample :
    Upload 7 [⟨7, 100, 1, 100, 1, true, "u"⟩] [42] = ([], .error .uploadNoResp) := by
  decide

/-- C2 as amended: for every upload ID whose server record already reports
`UploadedSize = TotalSize` with a non-zero total (and a well-formed non-zero
chunk count), `Upload` performs zero chunk submissions and returns the
"Unexpected empty response" error `ErrUploadNoResp` — not the existing
result ID. -/
theorem C2_amended_fully_uploaded (uid : Int) (r : upload_data) (responses : List Int)
    (hid : uid = r.ID) (htc : r.TotalChunks ≠ 0) (hts : r.TotalSize ≠ 0)
    (heq : r.UploadedSize = r.TotalSize) :
    Upload uid [r] responses = ([], .error .uploadNoResp) := by
  subst hid
  simp only [Upload, uploadSelectRecord]
  rw [if_neg (by simp), if_neg htc, uploadLoop.eq_def]
  dsimp only
  rw [if_neg (by omega)]
  simp

/-- Witness for C2's amended theorem at the concrete fully-uploaded record. -/
theorem C2_amended_fully_uploaded_witness :
    (7 : Int) = (⟨7, 100, 1, 100, 1, true, "u"⟩ : upload_data).ID ∧
    (⟨7, 100, 1, 100, 1, true, "u"⟩ : upload_data).TotalChunks ≠ 0 ∧
    (⟨7, 100, 1, 100, 1, true, "u"⟩ : upload_data).TotalSize ≠ 0 ∧
    (⟨7, 100, 1, 100, 1, true, "u"⟩ : upload_data).UploadedSize
      = (⟨7, 100, 1, 100, 1, true, "u"⟩ : upload_data).TotalSize ∧
    Upload 7 [⟨7, 100, 1, 100, 1, true, "u"⟩] [42] = ([], .error .uploadNoResp) :=
  ⟨rfl, by decide, by decide, rfl,
   C2_amended_fully_uploaded 7 ⟨7, 100, 1, 100, 1, true, "u"⟩ [42] rfl
     (by decide) (by decide) rfl⟩

/-- C5: at upload start, for a server record with positive `TotalChunks`,
`UploadedChunks` and `UploadedSize` (and bytes still to upload), the
authoritative chunk size is recomputed as `TotalSize / TotalChunks` from the
server record, the source is sought to `chunkSize × uploadedChunks` bytes,
and the first chunk then submitted carries index field
`uploadedChunks + 1`. -/
theorem C5_resume_seek_and_next_chunk (uid : Int) (r : upload_data) (resp : Int)
    (rest : List Int) (hid : uid = r.ID) (htc : 0 < r.TotalChunks)
    (huc : 0 < r.UploadedChunks) (hus : 0 < r.UploadedSize)
    (hrem : r.UploadedSize < r.TotalSize) :
    uploadSeekOffset r = some ((r.TotalSize / r.TotalChunks) * r.UploadedChunks) ∧
    ((Upload uid [r] (resp :: rest)).1.head?).map ChunkSubmission.index
      = some (r.UploadedChunks + 1) := by
  constructor
  · rw [uploadSeekOffset]
    exact if_pos ⟨huc, hus, huc⟩
  · subst hid
    simp only [Upload, uploadSelectRecord]
    rw [if_neg (by simp), if_neg (by omega)]
    rw [uploadLoop, if_pos (Or.inl hrem)]
    dsimp only
    rw [if_neg (by omega), List.nil_append]
    obtain ⟨t, ht⟩ := uploadLoop_acc r.TotalSize r.TotalChunks rest
      (if r.UploadedChunks = r.TotalChunks - 1 then r.TotalSize - r.UploadedSize
        else r.TotalSize / r.TotalChunks)
      (r.UploadedChunks + 1)
      (r.UploadedSize +
        if r.UploadedChunks = r.TotalChunks - 1 then r.TotalSize - r.UploadedSize
        else r.TotalSize / r.TotalChunks)
      resp
      [⟨r.UploadedChunks + 1,
        if r.UploadedChunks = r.TotalChunks - 1 then r.TotalSize - r.UploadedSize
        else r.TotalSize / r.TotalChunks⟩]
    rw [ht]
    simp

/-- Witness for C5 at the spec's example: `uploadedChunks = 3`,
`uploadedSize = 30,000,000`, `totalChunks = 10`, with `totalSize =
100,000,000`: the chunk size is 10,000,000, the source is sought to
3 × 10,000,000 = 30,000,000 bytes, and chunk 4 is sent next. -/
theorem C5_resume_seek_and_next_chunk_witness :
    (7 : Int) = (⟨7, 100000000, 10, 30000000, 3, false, "u"⟩ : upload_data).ID ∧
    uploadSeekOffset ⟨7, 100000000, 10, 30000000, 3, false, "u"⟩ = some 30000000 ∧
    ((Upload 7 [⟨7, 100000000, 10, 30000000, 3, false, "u"⟩] [5]).1.head?).map
      ChunkSubmission.index = some 4 :=
  ⟨rfl,
   (C5_resume_seek_and_next_chunk 7 ⟨7, 100000000, 10, 30000000, 3, false, "u"⟩ 5 []
      rfl (by decide) (by decide) (by decide) (by decide)).1,
   (C5_resume_seek_and_next_chunk 7 ⟨7, 100000000, 10, 30000000, 3, false, "u"⟩ 5 []
      rfl (by decide) (by decide) (by decide) (by decide)).2⟩

/-- C9: when the requested upload ID is absent from the server's listing,
`Upload` is claimed to fail with `ErrNoUploadID` and submit no chunks for
every requested ID, including 0.  Evaluated at the failing input
(requested ID 0, empty listing), the guard `upload_id != upload_record.ID`
compares 0 with the zero-value record's ID 0 and passes, and the code then
divides by the zero-value record's `TotalChunks = 0` — a Go runtime panic,
not the claimed error (for any response oracle; no chunk is submitted).  A
non-zero absent ID does fail with `ErrNoUploadID` as claimed. -/
theorem C9_absent_id_zero_divides_by_zero :
    Upload 0 [] [] = ([], .error .divByZeroPanic) ∧
    Upload 0 [] [5] = ([], .error .divByZeroPanic) ∧
    Upload 12 [] [] = ([], .error .noUploadID) ∧
    Upload 12 [⟨7, 100, 1, 0, 0, false, "u"⟩] [] = ([], .error .noUploadID) := by
  decide

end KWLib

namespace KWLib

/-! ## Transfer monitor byte accounting (`src/transfer_monitor.go` lines 121–130,
`transfer_reader.Seek`, `src/unnamed/part_001` lines 382–385) -/

/-- The byte-accounting fields of `TMonitor` (`src/transfer_monitor.go`
lines 109–119): `transfered` and `offset`, both Go `int64`. -/
structure TMonitorState where
  transfered : Int
  offset : Int
deriving DecidableEq, Repr

/-- `TMonitor.RecordTransfer`, lines 122–124:
`transfered = transfered + int64(current_sz)`. -/
def RecordTransfer (t : TMonitorState) (current_sz : Int) : TMonitorState :=
  { t with transfered := t.transfered + current_sz }

/-- `TMonitor.Offset`, lines 127–130: `t.transfered = current_sz;
t.offset = t.transfered`. -/
def TMOffset (t : TMonitorState) (current_sz : Int) : TMonitorState :=
  { transfered := current_sz, offset := current_sz }

/-- `transfer_reader.Seek`, `src/unnamed/part_001` lines 382–385: calls
`T.tm.Offset(offset)` before delegating to the underlying seeker. -/
def transferReaderSeek (t : TMonitorState) (offset : Int) : TMonitorState :=
  TMOffset t offset

/-- The operations that mutate the transferred-byte counter. -/
inductive TMOp where
  | recordTransfer : Int → TMOp
  | offset : Int → TMOp
  | seek : Int → TMOp
deriving DecidableEq, Repr

/-- Apply one counter-mutating operation. -/
def TMstep (t : TMonitorState) : TMOp → TMonitorState
  | .recordTransfer n => RecordTransfer t n
  | .offset v => TMOffset t v
  | .seek v => transferReaderSeek t v

/-- Apply a sequence of counter-mutating operations. -/
def TMrun (t : TMonitorState) : List TMOp → TMonitorState
  | [] => t
  | op :: rest => TMrun (TMstep t op) rest

/-- An operation is non-regressing at state `t`: a `RecordTransfer` has
non-negative size, an `Offset`/`Seek` argument is at least the current
counter. -/
def TMopOK (t : TMonitorState) : TMOp → Bool
  | .recordTransfer n => decide (0 ≤ n)
  | .offset v => decide (t.transfered ≤ v)
  | .seek v => decide (t.transfered ≤ v)

/-- Every operation of the sequence is non-regressing at the state where it
executes. -/
def TMopsOK (t : TMonitorState) : List TMOp → Bool
  | [] => true
  | op :: rest => TMopOK t op && TMopsOK (TMstep t op) rest

/-- C6 counterexample: the transferred counter **can** decrease across a
sequence of the mutating operations — `RecordTransfer 5` (a non-negative
size) followed by `Offset 0` assigns the counter from 5 back to 0, because
`TMonitor.Offset` sets `transfered` directly to its argument. -/
theorem C6_offset_decreases_counterexample :
    (0 : Int) ≤ 5 ∧
    (TMrun ⟨0, 0⟩ [.recordTransfer 5]).transfered = 5 ∧
    (TMrun ⟨0, 0⟩ [.recordTransfer 5, .offset 0]).transfered = 0 ∧
    (TMrun ⟨0, 0⟩ [.recordTransfer 5, .offset 0]).transfered <
      (TMrun ⟨0, 0⟩ [.recordTransfer 5]).transfered := by
  decide

/-- C6 as amended: `RecordTransfer` with a non-negative size never decreases
the transferred counter, but `Offset` — and the `transfer_reader` `Seek`
wrapper, which calls it — assigns the counter directly to its argument and
can decrease it; across any sequence of these operations in which every
`Offset`/`Seek` argument is at least the counter's current value (in
particular across sequences of non-negative `RecordTransfer`s alone), the
counter never decreases. -/
theorem C6_amended_counter_monotone (t : TMonitorState) (ops : List TMOp)
    (h : TMopsOK t ops = true) :
    t.transfered ≤ (TMrun t ops).transfered := by
  induction ops generalizing t with
  | nil => exact le_refl _
  | cons op rest ih =>
    rw [TMopsOK, Bool.and_eq_true] at h
    refine le_trans ?_ (ih (TMstep t op) h.2)
    have h1 := h.1
    cases op with
    | recordTransfer n =>
      rw [TMopOK, decide_eq_true_eq] at h1
      simp only [TMstep, RecordTransfer]
      omega
    | offset v =>
      rw [TMopOK, decide_eq_true_eq] at h1
      simpa [TMstep, TMOffset] using h1
    | seek v =>
      rw [TMopOK, decide_eq_true_eq] at h1
      simpa [TMstep, transferReaderSeek, TMOffset] using h1

/-- Witness for C6's amended theorem on a concrete operation sequence with a
forward seek. -/
theorem C6_amended_counter_monotone_witness :
    TMopsOK ⟨0, 0⟩ [.recordTransfer 5, .seek 5, .recordTransfer 2] = true ∧
    (⟨0, 0⟩ : TMonitorState).transfered ≤
      (TMrun ⟨0, 0⟩ [.recordTransfer 5, .seek 5, .recordTransfer 2]).transfered :=
  ⟨by decide,
   C6_amended_counter_monotone ⟨0, 0⟩ [.recordTransfer 5, .seek 5, .recordTransfer 2]
     (by decide)⟩

end KWLib

namespace KWLib

/-! ## Resumable downloader (`web_downloader`, `src/unnamed/part_001`
lines 47–118)

`Seek` (lines 94–101) can only be called before the first `Read`: it rejects
a negative offset, sets the `Range: bytes=offset-` header and stores
`W.offset`.  The first `Read` (lines 62–92) issues the pending GET via
`W.client.Do(W.req)` — modelled by taking that request's response as input —
then rejects a non-2xx status, and, when resuming (`W.offset > 0`), parses
`Content-Range` by trimming a leading `"bytes"` and splitting on `"-"`; if
the split has more than one part and the space-trimmed first part differs
from the decimal rendering of the offset, it fails; otherwise it reads from
the body. -/

/-- `strings.TrimPrefix(h, "bytes")`: drop a leading `"bytes"` when
present. -/
def dropBytesTag (l : List Char) : List Char :=
  if l.take 5 = "bytes".data then l.drop 5 else l

/-- `strings.Split` on a one-character separator. -/
def splitCh (c : Char) : List Char → List (List Char)
  | [] => [[]]
  | x :: xs =>
    let r := splitCh c xs
    if x = c then [] :: r
    else
      match r with
      | [] => [[x]]
      | h :: t => (x :: h) :: t

/-- `strings.TrimSpace` (the inputs involved are ASCII). -/
def trimSpace (l : List Char) : List Char :=
  ((l.dropWhile Char.isWhitespace).reverse.dropWhile Char.isWhitespace).reverse

/-- Decimal digits of `n`, most significant first; the first argument is
fuel, always called with `fuel = n ≥ n`'s digit count. -/
def decDigitsAux : Nat → Nat → List Char
  | 0, _ => []
  | fuel + 1, n =>
    if n = 0 then []
    else decDigitsAux fuel (n / 10) ++ [Char.ofNat (48 + n % 10)]

/-- `strconv.FormatInt(n, 10)` for the non-negative offsets involved. -/
def goFormatInt (n : Nat) : String :=
  if n = 0 then "0" else ⟨decDigitsAux n n⟩

/-- The response to the downloader's GET: status code, the
`Content-Range` header value (`""` when the header is absent) and the body
bytes. -/
structure WDResponse where
  StatusCode : Nat
  ContentRange : String
  Body : List Nat
deriving DecidableEq, Repr

/-- The first `web_downloader.Read` (lines 62–92) after a `Seek` stored
`offset`: issue the GET (its response is `resp`), reject a status outside
[200, 300), validate the content-range start on resume, then read up to
`p_len` bytes from the body. -/
def webFirstRead (offset : Nat) (resp : WDResponse) (p_len : Nat) :
    Nat × Option String :=
  if resp.StatusCode < 200 ∨ 300 ≤ resp.StatusCode then
    (0, some "GET status error")
  else
    let content_range := splitCh '-' (dropBytesTag resp.ContentRange.data)
    if 0 < offset ∧ 1 < content_range.length ∧
        trimSpace (content_range.headD []) ≠ (goFormatInt offset).data then
      (0, some "Requested byte mismatch")
    else
      (min p_len resp.Body.length, none)

/-- C8: for a `web_downloader` sought to a non-zero offset before any read,
the first `Read` — working on the response of the GET it issues — returns
zero bytes and an error for every non-2xx status, and, whenever the server's
`Content-Range` carries a start value (the dash-split has more than one
part) whose space-trimmed text differs from the decimal offset, returns
zero bytes and an error as well. -/
theorem C8_first_read_validation (offset : Nat) (resp : WDResponse) (p_len : Nat)
    (hoff : 0 < offset) :
    (resp.StatusCode < 200 ∨ 300 ≤ resp.StatusCode →
      webFirstRead offset resp p_len = (0, some "GET status error")) ∧
    (200 ≤ resp.StatusCode → resp.StatusCode < 300 →
      1 < (splitCh '-' (dropBytesTag resp.ContentRange.data)).length →
      trimSpace ((splitCh '-' (dropBytesTag resp.ContentRange.data)).headD []) ≠
        (goFormatInt offset).data →
      webFirstRead offset resp p_len = (0, some "Requested byte mismatch")) := by
  constructor
  · intro h
    rw [webFirstRead, if_pos h]
  · intro h1 h2 h3 h4
    rw [webFirstRead, if_neg (by omega)]
    dsimp only
    rw [if_pos ⟨hoff, h3, h4⟩]

/-- Witness for C8: offset 7, a 206 response whose content-range start is 5 —
the first read returns zero bytes and the mismatch error. -/
theorem C8_first_read_validation_witness :
    0 < 7 ∧
    webFirstRead 7 ⟨206, "bytes 5-99/100", [1, 2, 3]⟩ 10 =
      (0, some "Requested byte mismatch") :=
  ⟨by decide,
   (C8_first_read_validation 7 ⟨206, "bytes 5-99/100", [1, 2, 3]⟩ 10 (by decide)).2
     (by decide) (by decide) (by decide) (by decide)⟩

end KWLib
